import Mathlib

/-!
Shallow embedding of the order-processing core of the `hexagonal` repository:
the `Money`, `ItemPedido` and `StatusPedido` value objects, the `Pedido`
aggregate, the `MaquinaEstadosPedido` state machine, the
`CalculadoraDescontoService` discount strategies and the `SagaOrchestrator`.

Modelling conventions:
* JS numbers holding monetary amounts are modelled as an exact count of
  centavos (`Nat`); the source constructor `new Money(valor)` rounds to two
  decimals with `Math.round(valor * 100) / 100`, i.e. round-half-up, which is
  `roundHalfUpDiv` below.
* Methods that `throw` are modelled with `Except Err` when they cannot have
  mutated state before throwing, and with `α × Option Err` (final state plus
  optional thrown error) when the source mutates `this`/the context in place
  before a possible throw, so that partial mutation is observable.
* Fields irrelevant to every claim (ids, timestamps, the domain-event buffer,
  console logging) are omitted.
-/

namespace Hexagonal

/-- Errors thrown by the domain core.  Each constructor corresponds to one
`throw new Error(...)` site in the source. -/
inductive Err where
  /-- `Não é possível modificar itens com status ...` (Pedido.validateCanModifyItens) -/
  | invalidState : Err
  /-- currency-mismatch errors (Money.validateSameCurrency, Pedido.validateItemParaAdicionar) -/
  | currencyMismatch : Err
  /-- ItemPedido.validateQuantidade failures (zero, non-positive or above 1000) -/
  | quantidadeInvalida : Err
  /-- ItemPedido.validateProduto / validatePrecoUnitario failures -/
  | itemInvalido : Err
  /-- Money.divide with divisor ≤ 0 -/
  | divisorInvalido : Err
  /-- `Transição inválida: from -> to` (MaquinaEstadosPedido / StatusPedidoVO) -/
  | transicaoInvalida : Err
  /-- `Não é possível confirmar pedido vazio` -/
  | pedidoVazio : Err
  /-- `Falha ao executar transição from -> to: ...` wrapper -/
  | falhaTransicao : Err
  /-- `Não é possível chegar ao status X a partir de Y` (executarFluxoAutomatico) -/
  | statusInalcancavel : Err
  /-- `Step não encontrado: stepId` (SagaOrchestrator.executarStep) -/
  | stepNaoEncontrado : String → Err
  /-- `Step stepId não pode ser executado no contexto atual` -/
  | stepNaoExecutavel : String → Err
  /-- an error thrown by a saga step's `execute` / `compensate` body,
      tagged with an identifying string -/
  | stepFalhou : String → Err
deriving DecidableEq, Repr

/-! ## Money (src/domain/value-objects/Money.ts) -/

/-- The `Moeda` union type: `'BRL' | 'USD' | 'EUR'`. -/
inductive Moeda where
  | BRL | USD | EUR
deriving DecidableEq, Repr

/-- `Math.round(a / b)` for non-negative `a` and positive `b`, i.e.
round-half-up: `⌊a/b + 1/2⌋ = (2a + b) / (2b)` in natural division.
`new Money(v)` stores `Math.round(v * 100) / 100`; we track the value in
centavos, so every rounding in the source is an instance of this. -/
def roundHalfUpDiv (a b : Nat) : Nat := (2 * a + b) / (2 * b)

/-- `Money`: a non-negative amount, stored as centavos (the source stores a
two-decimal value; `centavos = valor * 100`), tagged with a currency. -/
structure Money where
  centavos : Nat
  moeda : Moeda
deriving DecidableEq, Repr

namespace Money

/-- `Money.zero(moeda)`. -/
def zero (moeda : Moeda) : Money := ⟨0, moeda⟩

/-- `Money.add`: requires matching currency, else throws; the sum of two
two-decimal values needs no rounding. -/
def add (a b : Money) : Except Err Money :=
  if a.moeda ≠ b.moeda then .error .currencyMismatch
  else .ok ⟨a.centavos + b.centavos, a.moeda⟩

/-- `Money.multiply(k)` for a natural multiplier `k` (the quantity case):
`Math.round(valor * k * 100) / 100 = valor * k` exactly. -/
def multiplyNat (m : Money) (k : Nat) : Money := ⟨m.centavos * k, m.moeda⟩

/-- `Money.multiply(p / 100)` for an integer percentage `p` (the discount
case): the result in centavos is `round(centavos * p / 100)`. -/
def multiplyPercent (m : Money) (p : Nat) : Money :=
  ⟨roundHalfUpDiv (m.centavos * p) 100, m.moeda⟩

/-- `Money.divide(d)`: throws for `d ≤ 0`; the result in centavos is
`round(centavos / d)`. -/
def divide (m : Money) (d : Nat) : Except Err Money :=
  if d = 0 then .error .divisorInvalido
  else .ok ⟨roundHalfUpDiv m.centavos d, m.moeda⟩

/-- `Money.isZero()`. -/
def isZero (m : Money) : Bool := m.centavos = 0

/-- `Money.isGreaterThan`: validates same currency (throws on mismatch). -/
def isGreaterThan (a b : Money) : Except Err Bool :=
  if a.moeda ≠ b.moeda then .error .currencyMismatch
  else .ok (decide (a.centavos > b.centavos))

end Money

/-! ## ItemPedido (src/domain/value-objects/ItemPedido.ts) -/

/-- `ProdutoInfo`. -/
structure ProdutoInfo where
  id : String
  nome : String
  descricao : Option String := none
deriving DecidableEq, Repr

/-- `ItemPedido`: product reference, quantity, unit price.  The derived
`precoTotal` is `precoUnitario.multiply(quantidade)`. -/
structure ItemPedido where
  produto : ProdutoInfo
  quantidade : Nat
  precoUnitario : Money
deriving DecidableEq, Repr

namespace ItemPedido

/-- The derived `precoTotal` field computed in the constructor. -/
def precoTotal (i : ItemPedido) : Money := i.precoUnitario.multiplyNat i.quantidade

/-- The `ItemPedido` constructor with its validations
(`validateProduto`, `validateQuantidade`, `validatePrecoUnitario`). -/
def criar (produto : ProdutoInfo) (quantidade : Nat) (precoUnitario : Money) :
    Except Err ItemPedido :=
  if produto.id = "" then .error .itemInvalido
  else if produto.nome = "" then .error .itemInvalido
  else if quantidade = 0 then .error .quantidadeInvalida
  else if quantidade > 1000 then .error .quantidadeInvalida
  else if precoUnitario.isZero then .error .itemInvalido
  else .ok ⟨produto, quantidade, precoUnitario⟩

/-- `alterarQuantidade`: returns a new item via the constructor, keeping the
product reference and the unit price of `this`. -/
def alterarQuantidade (i : ItemPedido) (novaQuantidade : Nat) : Except Err ItemPedido :=
  criar i.produto novaQuantidade i.precoUnitario

/-- `isMesmoProduto`: same product iff the product ids match. -/
def isMesmoProduto (a b : ItemPedido) : Bool := a.produto.id = b.produto.id

end ItemPedido

/-! ## StatusPedido (src/domain/value-objects/StatusPedido.ts) -/

/-- The `StatusPedido` enum. -/
inductive StatusPedido where
  | PENDENTE | CONFIRMADO | PREPARANDO | PRONTO | ENVIADO | ENTREGUE | CANCELADO
deriving DecidableEq, Repr

namespace StatusPedido

/-- The allowed-transition table shared by `canTransitionTo` and
`getValidTransitions`. -/
def getValidTransitions : StatusPedido → List StatusPedido
  | .PENDENTE => [.CONFIRMADO, .CANCELADO]
  | .CONFIRMADO => [.PREPARANDO, .CANCELADO]
  | .PREPARANDO => [.PRONTO, .CANCELADO]
  | .PRONTO => [.ENVIADO]
  | .ENVIADO => [.ENTREGUE]
  | .ENTREGUE => []
  | .CANCELADO => []

/-- `canTransitionTo`. -/
def canTransitionTo (s novo : StatusPedido) : Bool := novo ∈ s.getValidTransitions

/-- `isFinalStatus`. -/
def isFinalStatus (s : StatusPedido) : Bool :=
  s = .ENTREGUE ∨ s = .CANCELADO

end StatusPedido

/-! ## Pedido (src/domain/entities/Pedido.ts) -/

/-- The `Pedido` aggregate.  Ids, timestamps, `observacoes` and the
domain-event buffer are omitted (no claim mentions them). -/
structure Pedido where
  clienteId : String
  itens : List ItemPedido
  status : StatusPedido
deriving DecidableEq, Repr

namespace Pedido

/-- `isEmpty()`. -/
def isEmpty (p : Pedido) : Bool := p.itens.isEmpty

/-- The fold inside `calcularTotal`: `itens.reduce((t, i) => t.add(i.precoTotal), z)`,
where `add` can throw on a currency mismatch. -/
def somaItens (acc : Money) : List ItemPedido → Except Err Money
  | [] => .ok acc
  | i :: rest =>
    match acc.add i.precoTotal with
    | .error e => .error e
    | .ok acc' => somaItens acc' rest

/-- `calcularTotal()`: `Money.zero()` (default `BRL`) for an empty order, else
the sum of the item totals seeded with zero in the first item's currency. -/
def calcularTotal (p : Pedido) : Except Err Money :=
  match p.itens with
  | [] => .ok (Money.zero .BRL)
  | primeiro :: _ => somaItens (Money.zero primeiro.precoTotal.moeda) p.itens

/-- `calcularQuantidadeItens()`: sum of the item quantities. -/
def calcularQuantidadeItens (p : Pedido) : Nat :=
  p.itens.foldl (fun total item => total + item.quantidade) 0

/-- `validateCanModifyItens`: throws for the five statuses listed in the
source — CONFIRMADO, PREPARANDO, PRONTO, ENVIADO, ENTREGUE.  Note that
CANCELADO is *not* in the list. -/
def validateCanModifyItens (p : Pedido) : Option Err :=
  if p.status = .CONFIRMADO ∨ p.status = .PREPARANDO ∨ p.status = .PRONTO ∨
      p.status = .ENVIADO ∨ p.status = .ENTREGUE then
    some .invalidState
  else none

/-- `validateItemParaAdicionar`: currency of the new item must match the
first existing item's currency. -/
def validateItemParaAdicionar (p : Pedido) (item : ItemPedido) : Option Err :=
  match p.itens with
  | [] => none
  | primeiro :: _ =>
    if item.precoTotal.moeda ≠ primeiro.precoTotal.moeda then some .currencyMismatch
    else none

/-- `adicionarItem`: validates, then either merges with an existing item of
the same product (removing the old item first, then building the merged item
— which can throw *after* the removal) or appends the new item.  Returns the
final state of the order together with the thrown error, if any. -/
def adicionarItem (p : Pedido) (item : ItemPedido) : Pedido × Option Err :=
  match validateCanModifyItens p with
  | some e => (p, some e)
  | none =>
    match validateItemParaAdicionar p item with
    | some e => (p, some e)
    | none =>
      match p.itens.find? (fun i => i.isMesmoProduto item) with
      | some itemExistente =>
        let restantes := p.itens.filter (fun i => ¬ i.isMesmoProduto item)
        let novaQuantidade := itemExistente.quantidade + item.quantidade
        match itemExistente.alterarQuantidade novaQuantidade with
        | .error e => ({ p with itens := restantes }, some e)
        | .ok itemAtualizado => ({ p with itens := restantes ++ [itemAtualizado] }, none)
      | none => ({ p with itens := p.itens ++ [item] }, none)

/-- `alterarStatus`: checks the value object's transition table, then swaps
the status (events omitted). -/
def alterarStatus (p : Pedido) (novoStatus : StatusPedido) : Except Err Pedido :=
  if ¬ p.status.canTransitionTo novoStatus then .error .transicaoInvalida
  else .ok { p with status := novoStatus }

end Pedido

/-! ## MaquinaEstadosPedido (src/domain/services/MaquinaEstadosPedido.ts) -/

/-- `ITransicaoEstado`: a transition edge with its guard (`condition`).  The
guard can itself throw (the `PENDENTE → CONFIRMADO` guard calls
`calcularTotal`), hence `Except Err Bool`.  The `preAction`/`postAction`
hooks of the source only log to the console, except the
`PENDENTE → CONFIRMADO` pre-action which throws exactly when the guard is
already false, so they are not modelled. -/
structure ITransicaoEstado where
  fromStatus : StatusPedido
  toStatus : StatusPedido
  condition : Pedido → Except Err Bool

namespace MaquinaEstadosPedido

/-- The guard of `PENDENTE → CONFIRMADO`:
`!pedido.isEmpty() && pedido.calcularTotal().valor > 0` (short-circuit: the
total is not computed for an empty order). -/
def condPendenteConfirmado (pedido : Pedido) : Except Err Bool :=
  if pedido.isEmpty then .ok false
  else
    match pedido.calcularTotal with
    | .error e => .error e
    | .ok total => .ok (decide (total.centavos > 0))

/-- The transition table built by `configurarTransicoes`, keyed by source
status, entries in registration order. -/
def transicoes : StatusPedido → List ITransicaoEstado
  | .PENDENTE =>
      [⟨.PENDENTE, .CONFIRMADO, condPendenteConfirmado⟩,
       ⟨.PENDENTE, .CANCELADO, fun _ => .ok true⟩]
  | .CONFIRMADO =>
      [⟨.CONFIRMADO, .PREPARANDO, fun pedido => .ok (¬ pedido.isEmpty)⟩,
       ⟨.CONFIRMADO, .CANCELADO, fun _ => .ok true⟩]
  | .PREPARANDO =>
      [⟨.PREPARANDO, .PRONTO, fun _ => .ok true⟩,
       ⟨.PREPARANDO, .CANCELADO, fun _ => .ok true⟩]
  | .PRONTO => [⟨.PRONTO, .ENVIADO, fun _ => .ok true⟩]
  | .ENVIADO => [⟨.ENVIADO, .ENTREGUE, fun _ => .ok true⟩]
  | .ENTREGUE => []
  | .CANCELADO => []

/-- `podeTransicionar`: edge exists and its guard holds; a guard exception
propagates (contrast with `obterTransicoesDisponiveis`). -/
def podeTransicionar (pedido : Pedido) (novoStatus : StatusPedido) : Except Err Bool :=
  match (transicoes pedido.status).find? (fun t => t.toStatus = novoStatus) with
  | none => .ok false
  | some transicao => transicao.condition pedido

/-- `executarTransicao`: throws `Transição inválida` if no edge exists or the
guard fails (with the dedicated `pedido vazio` message for confirming an
empty pending order); then runs the transition through
`pedido.alterarStatus`, wrapping its failure in `Falha ao executar
transição`. -/
def executarTransicao (pedido : Pedido) (novoStatus : StatusPedido) : Except Err Pedido :=
  match (transicoes pedido.status).find? (fun t => t.toStatus = novoStatus) with
  | none => .error .transicaoInvalida
  | some transicao =>
    match transicao.condition pedido with
    | .error e => .error e
    | .ok false =>
      if pedido.status = .PENDENTE ∧ novoStatus = .CONFIRMADO ∧ pedido.isEmpty then
        .error .pedidoVazio
      else .error .transicaoInvalida
    | .ok true =>
      match pedido.alterarStatus novoStatus with
      | .error _ => .error .falhaTransicao
      | .ok pedido' => .ok pedido'

/-- `obterTransicoesDisponiveis`: filters the outgoing edges by guard,
swallowing guard exceptions as "not available". -/
def obterTransicoesDisponiveis (pedido : Pedido) : List StatusPedido :=
  ((transicoes pedido.status).filter (fun transicao =>
      match transicao.condition pedido with
      | .ok b => b
      | .error _ => false)).map (fun transicao => transicao.toStatus)

/-- One dequeue-and-expand step of the breadth-first search in
`encontrarCaminho`: enqueue every unvisited successor, marking it visited as
it is enqueued. -/
def expandir (caminho : List StatusPedido) :
    List ITransicaoEstado → List (StatusPedido × List StatusPedido) → List StatusPedido →
    List (StatusPedido × List StatusPedido) × List StatusPedido
  | [], fila, visitados => (fila, visitados)
  | t :: rest, fila, visitados =>
    if t.toStatus ∈ visitados then expandir caminho rest fila visitados
    else expandir caminho rest (fila ++ [(t.toStatus, caminho ++ [t.toStatus])])
      (visitados ++ [t.toStatus])

/-- The BFS loop of `encontrarCaminho`, with explicit fuel (the graph has 7
states, so any fuel ≥ 8 is enough; the source loop runs until the queue is
empty). -/
def bfsLoop : Nat → List (StatusPedido × List StatusPedido) → List StatusPedido →
    StatusPedido → List StatusPedido
  | 0, _, _, _ => []
  | _ + 1, [], _, _ => []
  | fuel + 1, (status, caminho) :: fila, visitados, statusDesejado =>
    if status = statusDesejado then caminho
    else
      let (fila', visitados') := expandir caminho (transicoes status) fila visitados
      bfsLoop fuel fila' visitados' statusDesejado

/-- `encontrarCaminho`: breadth-first search from the current status to the
desired one, ignoring guards; returns the list of statuses to step through
(empty if unreachable). -/
def encontrarCaminho (statusAtual statusDesejado : StatusPedido) : List StatusPedido :=
  bfsLoop 16 [(statusAtual, [])] [statusAtual] statusDesejado

/-- The walk inside `executarFluxoAutomatico`: execute each hop of the path
in sequence, recording each invocation `(statusAnterior, proximoStatus)` of
the optional `onTransition` callback (the callback is invoked right before
the hop is executed). -/
def executarHops (pedido : Pedido) (caminho : List StatusPedido)
    (chamadas : List (StatusPedido × StatusPedido)) :
    Except Err (Pedido × List (StatusPedido × StatusPedido)) :=
  match caminho with
  | [] => .ok (pedido, chamadas)
  | proximoStatus :: resto =>
    let statusAnterior := pedido.status
    let chamadas' := chamadas ++ [(statusAnterior, proximoStatus)]
    match executarTransicao pedido proximoStatus with
    | .error e => .error e
    | .ok pedido' => executarHops pedido' resto chamadas'

/-- `executarFluxoAutomatico`: no-op if already at the target; otherwise
finds a path (throwing if there is none) and executes each hop, invoking the
optional callback before each hop.  The second component of the result is
the sequence of callback invocations. -/
def executarFluxoAutomatico (pedido : Pedido) (statusDesejado : StatusPedido) :
    Except Err (Pedido × List (StatusPedido × StatusPedido)) :=
  if pedido.status = statusDesejado then .ok (pedido, [])
  else
    let caminho := encontrarCaminho pedido.status statusDesejado
    if caminho = [] then .error .statusInalcancavel
    else executarHops pedido caminho []

end MaquinaEstadosPedido

/-! ## CalculadoraDescontoService (domain/services, unnamed source part) -/

/-- A coupon registry entry: `{ percentual, valorMinimo?, ativo }`.
`valorMinimo` is in currency units (not centavos), as in the source. -/
structure CupomConfig where
  percentual : Nat
  valorMinimo : Option Nat
  ativo : Bool
deriving DecidableEq, Repr

namespace CalculadoraDescontoService

/-- The default coupon registry built in the `DescontoPorCupomStrategy`
constructor. -/
def cuponsValidos (codigo : String) : Option CupomConfig :=
  if codigo = "DESCONTO10" then some ⟨10, some 50, true⟩
  else if codigo = "DESCONTO15" then some ⟨15, some 100, true⟩
  else if codigo = "DESCONTO20" then some ⟨20, some 200, true⟩
  else if codigo = "FRETEGRATIS" then some ⟨5, some 100, true⟩
  else if codigo = "BLACKFRIDAY" then some ⟨25, some 150, true⟩
  else none

/-- `DescontoPorQuantidadeStrategy.calcular` with the parameters the service
passes (`limiteQuantidade: 10`, `percentual: 5`), applied to
`precoUnitario.multiply(quantidade)` as in
`calcularDescontoPorQuantidade`. -/
def calcularDescontoPorQuantidade (quantidade : Nat) (precoUnitario : Money) : Money :=
  let valorTotal := precoUnitario.multiplyNat quantidade
  if quantidade ≥ 10 then valorTotal.multiplyPercent 5
  else Money.zero valorTotal.moeda

/-- `DescontoPorValorTotalStrategy.calcular` with the parameters the service
passes (`limiteValor: 500`, `percentual: 10`).  `valorTotal.valor >= 500`
is `centavos ≥ 50000`. -/
def calcularDescontoPorValorTotal (valorTotal : Money) : Money :=
  if valorTotal.centavos ≥ 500 * 100 then valorTotal.multiplyPercent 10
  else Money.zero valorTotal.moeda

/-- `DescontoPorCupomStrategy.calcular` over the default registry: unknown,
inactive or below-minimum coupons yield zero. -/
def aplicarCupomDesconto (cupom : String) (valorTotal : Money) : Money :=
  match cuponsValidos cupom with
  | none => Money.zero valorTotal.moeda
  | some config =>
    if ¬ config.ativo then Money.zero valorTotal.moeda
    else
      match config.valorMinimo with
      | some valorMinimo =>
        if valorTotal.centavos < valorMinimo * 100 then Money.zero valorTotal.moeda
        else valorTotal.multiplyPercent config.percentual
      | none => valorTotal.multiplyPercent config.percentual

/-- `calcularDescontoTotal(pedido, cupom?)`: zero for a zero total, else the
sum of the quantity discount (computed from the order total divided by the
total quantity), the value discount and the coupon discount, each added only
when positive, the sum finally clamped to the order total. -/
def calcularDescontoTotal (pedido : Pedido) (cupom : Option String) : Except Err Money :=
  match pedido.calcularTotal with
  | .error e => .error e
  | .ok valorTotal =>
    let quantidadeTotal := pedido.calcularQuantidadeItens
    if valorTotal.isZero then .ok (Money.zero valorTotal.moeda)
    else
      match valorTotal.divide quantidadeTotal with
      | .error e => .error e
      | .ok precoUnitario =>
        let descontoQuantidade := calcularDescontoPorQuantidade quantidadeTotal precoUnitario
        let descontoZero := Money.zero valorTotal.moeda
        match (if descontoQuantidade.centavos > 0 then descontoZero.add descontoQuantidade
               else .ok descontoZero) with
        | .error e => .error e
        | .ok desconto1 =>
          let descontoValor := calcularDescontoPorValorTotal valorTotal
          match (if descontoValor.centavos > 0 then desconto1.add descontoValor
                 else .ok desconto1) with
          | .error e => .error e
          | .ok desconto2 =>
            match (match cupom with
                   | none => .ok desconto2
                   | some codigo =>
                     let descontoCupom := aplicarCupomDesconto codigo valorTotal
                     if descontoCupom.centavos > 0 then desconto2.add descontoCupom
                     else .ok desconto2 : Except Err Money) with
            | .error e => .error e
            | .ok descontoTotal =>
              match descontoTotal.isGreaterThan valorTotal with
              | .error e => .error e
              | .ok true => .ok valorTotal
              | .ok false => .ok descontoTotal

end CalculadoraDescontoService

/-! ## SagaOrchestrator (domain/services, unnamed source part) -/

/-- `SagaContext`: the mutable state threaded through one saga run.  The
`parameters` bag is modelled as an append-only association list (saga steps
only write to it); `events` carries the event buffer (unused by the modelled
steps); `pedido` is the order the saga operates on. -/
structure SagaContext where
  pedido : Pedido
  parameters : List (String × String)
  executedSteps : List String
  events : List String
  errors : List Err
deriving DecidableEq, Repr

/-- `ISagaStep`: `execute`/`compensate` mutate the context in place and may
throw, so both are modelled as returning the final context together with the
optional thrown error. -/
structure ISagaStep where
  id : String
  name : String
  execute : SagaContext → SagaContext × Option Err
  compensate : SagaContext → SagaContext × Option Err
  canExecute : Option (SagaContext → Bool) := none

namespace SagaOrchestrator

/-- The step registry (`this.steps`), looked up by id. -/
def findStep (steps : List ISagaStep) (stepId : String) : Option ISagaStep :=
  steps.find? (fun s => s.id = stepId)

/-- `executarStep`: `Step não encontrado` / `não pode ser executado` throws
happen *outside* the try/catch, so they are not recorded into
`context.errors`; an error thrown by `step.execute` is pushed onto
`context.errors` and re-thrown; on success the step id is appended to
`executedSteps`. -/
def executarStep (steps : List ISagaStep) (stepId : String) (context : SagaContext) :
    SagaContext × Option Err :=
  match findStep steps stepId with
  | none => (context, some (.stepNaoEncontrado stepId))
  | some step =>
    if (step.canExecute.map (fun can => can context)).getD true = false then
      (context, some (.stepNaoExecutavel stepId))
    else
      match step.execute context with
      | (context', none) =>
        ({ context' with executedSteps := context'.executedSteps ++ [stepId] }, none)
      | (context', some e) =>
        ({ context' with errors := context'.errors ++ [e] }, some e)

/-- The loop body shared by `executarRollback` and `executarCompensacao`:
compensate each listed step in order, skipping unknown ids, catching a
compensation error by pushing it onto `context.errors` and continuing with
the remaining steps. -/
def compensarSteps (steps : List ISagaStep) (context : SagaContext) :
    List String → SagaContext
  | [] => context
  | stepId :: resto =>
    match findStep steps stepId with
    | none => compensarSteps steps context resto
    | some step =>
      match step.compensate context with
      | (context', none) => compensarSteps steps context' resto
      | (context', some e) =>
        compensarSteps steps { context' with errors := context'.errors ++ [e] } resto

/-- `executarCompensacao(context, ateStep?)`: compensates
`executedSteps` in reverse order; when `ateStep` is given and found in the
history, only the steps executed *after* it (`slice(indice + 1)`) are
compensated; when it is given but *not* found (`indexOf === -1`), the
initial full reversed list is left untouched and everything is
compensated. -/
def executarCompensacao (steps : List ISagaStep) (context : SagaContext)
    (ateStep : Option String) : SagaContext :=
  let stepsParaCompensar :=
    match ateStep with
    | none => context.executedSteps.reverse
    | some s =>
      let indiceStep := context.executedSteps.indexOf s
      if indiceStep < context.executedSteps.length then
        ((context.executedSteps.drop (indiceStep + 1)).reverse)
      else context.executedSteps.reverse
  compensarSteps steps context stepsParaCompensar

/-- `executarRollback(context)`: compensates every executed step in reverse
order. -/
def executarRollback (steps : List ISagaStep) (context : SagaContext) : SagaContext :=
  compensarSteps steps context context.executedSteps.reverse

/-- The `for` loop of `executarSagaComSteps`: run each step in sequence,
aborting at the first failure. -/
def executarStepsEmSequencia (steps : List ISagaStep) (context : SagaContext) :
    List String → SagaContext × Option Err
  | [] => (context, none)
  | stepId :: resto =>
    match executarStep steps stepId context with
    | (context', none) => executarStepsEmSequencia steps context' resto
    | (context', some e) => (context', some e)

/-- `executarSagaComSteps`: builds a fresh context, runs the steps in
sequence; on failure the catch block pushes the error onto `context.errors`
(a second time when `executarStep` already did), runs the full automatic
compensation, and re-throws the *original* error. -/
def executarSagaComSteps (steps : List ISagaStep) (pedido : Pedido)
    (stepsIds : List String) (parameters : List (String × String)) :
    SagaContext × Option Err :=
  let context : SagaContext := ⟨pedido, parameters, [], [], []⟩
  match executarStepsEmSequencia steps context stepsIds with
  | (context', none) => (context', none)
  | (context', some e) =>
    let contextComErro := { context' with errors := context'.errors ++ [e] }
    (executarCompensacao steps contextComErro none, some e)

end SagaOrchestrator

/-! ## Concrete fixtures used by the theorems below -/

/-- A valid product reference. -/
def produtoUm : ProdutoInfo := ⟨"produto-1", "Produto 1", none⟩

/-- A second reference to the same product id (different display name). -/
def produtoUmBis : ProdutoInfo := ⟨"produto-1", "Produto 1 bis", none⟩

/-- A valid item: 1 × R$ 100.00. -/
def itemUm : ItemPedido := ⟨produtoUm, 1, ⟨10000, .BRL⟩⟩

/-- A pending one-item order (non-empty, positive total, so confirmable). -/
def pedidoExemplo : Pedido := ⟨"cliente-123", [itemUm], .PENDENTE⟩

/-- A canceled order with no items. -/
def pedidoCancelado : Pedido := ⟨"cliente-123", [], .CANCELADO⟩

/-- A delivered order. -/
def pedidoEntregue : Pedido := ⟨"cliente-123", [itemUm], .ENTREGUE⟩

/-- Order whose total is R$ 100.49 spread over 100 units: 99 × R$ 1.00 plus
1 × R$ 1.49. -/
def pedidoCemUnidades : Pedido :=
  ⟨"cliente-123",
   [⟨⟨"produto-a", "Produto A", none⟩, 99, ⟨100, .BRL⟩⟩,
    ⟨⟨"produto-b", "Produto B", none⟩, 1, ⟨149, .BRL⟩⟩],
   .PENDENTE⟩

/-- A pending order holding 600 units of `produto-1`. -/
def pedidoSeiscentos : Pedido := ⟨"cliente-123", [⟨produtoUm, 600, ⟨100, .BRL⟩⟩], .PENDENTE⟩

/-- An incoming item for the same product: 600 more units at a different
unit price. -/
def itemSeiscentos : ItemPedido := ⟨produtoUmBis, 600, ⟨200, .BRL⟩⟩

/-- An instrumented saga step: `execute`/`compensate` append a record of
their invocation to the `parameters` bag and fail according to the two
flags.  This plays the role of the arbitrary user-supplied `ISagaStep`
implementations the orchestrator accepts. -/
def stepTrace (i : String) (falhaExecute falhaCompensate : Bool) : ISagaStep :=
  { id := i, name := i,
    execute := fun c =>
      ({ c with parameters := c.parameters ++ [("execute", i)] },
       if falhaExecute then some (.stepFalhou i) else none),
    compensate := fun c =>
      ({ c with parameters := c.parameters ++ [("compensate", i)] },
       if falhaCompensate then some (.stepFalhou ("compensacao-" ++ i)) else none) }

/-- Three instrumented steps: the first two execute successfully, the third
one's `execute` throws; the compensations of the first two fail according to
the flags. -/
def registroTresSteps (falhaComp1 falhaComp2 : Bool) : List ISagaStep :=
  [stepTrace "s1" false falhaComp1, stepTrace "s2" false falhaComp2, stepTrace "s3" true false]

/-- Registry with a single instrumented step `s1` whose compensation
succeeds. -/
def registroUmStep : List ISagaStep := [stepTrace "s1" false false]

/-- A context whose history records `s1` as executed. -/
def contextoComS1 : SagaContext := ⟨pedidoExemplo, [], ["s1"], [], []⟩

/-- Two instrumented steps, the second of which fails on execution;
no compensation fails. -/
def registroDoisSteps : List ISagaStep :=
  [stepTrace "s1" false false, stepTrace "s2" true false]

/-! ## Theorems -/

open MaquinaEstadosPedido CalculadoraDescontoService SagaOrchestrator

/-- C1.  The claim says `adicionarItem` fails with an invalid-state error on
every order whose status is not PENDENTE, in particular on a CANCELADO
order.  `validateCanModifyItens` however only rejects CONFIRMADO, PREPARANDO,
PRONTO, ENVIADO and ENTREGUE, so on a CANCELADO order the item is accepted:
below, adding a valid item to a canceled order returns no error and the item
is stored. -/
theorem adicionarItem_em_pedido_cancelado_aceita_item :
    pedidoCancelado.adicionarItem itemUm = ({ pedidoCancelado with itens := [itemUm] }, none) :=
  rfl

/-- C2, counterexample.  The claim says that `executarCompensacao` with a
`throughStepId` absent from the history compensates nothing and leaves the
context unchanged.  On a context whose history is `["s1"]` and an absent id,
the compensation of `s1` *is* invoked (it leaves its record in the
parameters bag), so the context changes. -/
theorem executarCompensacao_ateStep_ausente_compensa_tudo :
    (executarCompensacao registroUmStep contextoComS1 (some "nao-existe")).parameters =
      [("compensate", "s1")] ∧
    contextoComS1.parameters = [] ∧
    executarCompensacao registroUmStep contextoComS1 (some "nao-existe") ≠ contextoComS1 := by
  refine ⟨rfl, rfl, by decide⟩

/-- C2, amended.  When `throughStepId` does not occur in
`context.executedSteps`, `indexOf` misses and the initially computed full
reversed history is left as the compensation list: the call behaves exactly
like a full compensation (`executarCompensacao` with no `ateStep`), not like
a no-op. -/
theorem executarCompensacao_ateStep_ausente_igual_compensacao_total
    (steps : List ISagaStep) (context : SagaContext) (s : String)
    (h : s ∉ context.executedSteps) :
    executarCompensacao steps context (some s) = executarCompensacao steps context none := by
  have hidx : context.executedSteps.indexOf s = context.executedSteps.length :=
    List.indexOf_eq_length.mpr h
  simp [executarCompensacao, hidx]

/-- Witness for the amended C2 theorem at a concrete context. -/
theorem executarCompensacao_ateStep_ausente_witness :
    "nao-existe" ∉ contextoComS1.executedSteps ∧
    executarCompensacao registroUmStep contextoComS1 (some "nao-existe") =
      executarCompensacao registroUmStep contextoComS1 none :=
  ⟨by decide,
   executarCompensacao_ateStep_ausente_igual_compensacao_total registroUmStep contextoComS1
     "nao-existe" (by decide)⟩

/-- C3, counterexample.  On a non-empty confirmable pending order,
`executarFluxoAutomatico` to ENTREGUE invokes the per-transition callback 5
times (once per hop of the 5-status path), not 4 as claimed. -/
theorem executarFluxoAutomatico_cinco_chamadas :
    (executarFluxoAutomatico pedidoExemplo .ENTREGUE).map (fun r => r.2.length) = .ok 5 ∧
    (5 : Nat) ≠ 4 :=
  ⟨rfl, by decide⟩

/-- C3, amended.  `encontrarCaminho` from PENDENTE to ENTREGUE returns the
5-status path `[CONFIRMADO, PREPARANDO, PRONTO, ENVIADO, ENTREGUE]`, and on
every non-empty confirmable pending order `executarFluxoAutomatico` to
ENTREGUE walks exactly that path, invoking the optional per-transition
callback exactly 5 times — once per hop, not 4 times as the spec states. -/
theorem encontrarCaminho_pendente_entregue_e_fluxo
    (pedido : Pedido) (total : Money)
    (h1 : pedido.status = .PENDENTE)
    (h2 : pedido.isEmpty = false)
    (htot : pedido.calcularTotal = .ok total)
    (hpos : 0 < total.centavos) :
    encontrarCaminho .PENDENTE .ENTREGUE =
      [.CONFIRMADO, .PREPARANDO, .PRONTO, .ENVIADO, .ENTREGUE] ∧
    executarFluxoAutomatico pedido .ENTREGUE =
      .ok ({ pedido with status := .ENTREGUE },
           [(.PENDENTE, .CONFIRMADO), (.CONFIRMADO, .PREPARANDO), (.PREPARANDO, .PRONTO),
            (.PRONTO, .ENVIADO), (.ENVIADO, .ENTREGUE)]) ∧
    (executarFluxoAutomatico pedido .ENTREGUE).map (fun r => r.2.length) = .ok 5 := by
  obtain ⟨clienteId, itens, status⟩ := pedido
  simp only [] at h1
  subst h1
  rcases itens with _ | ⟨primeiro, resto⟩
  · simp [Pedido.isEmpty] at h2
  · have hfluxo : executarFluxoAutomatico
        (⟨clienteId, primeiro :: resto, .PENDENTE⟩ : Pedido) .ENTREGUE =
        .ok (⟨clienteId, primeiro :: resto, .ENTREGUE⟩,
             [(.PENDENTE, .CONFIRMADO), (.CONFIRMADO, .PREPARANDO), (.PREPARANDO, .PRONTO),
              (.PRONTO, .ENVIADO), (.ENVIADO, .ENTREGUE)]) := by
      simp [executarFluxoAutomatico, encontrarCaminho, bfsLoop, expandir, transicoes,
        executarHops, executarTransicao, condPendenteConfirmado, Pedido.isEmpty,
        htot, hpos, Pedido.alterarStatus, StatusPedido.canTransitionTo,
        StatusPedido.getValidTransitions, List.find?]
    exact ⟨rfl, hfluxo, by rw [hfluxo]; rfl⟩

/-- Witness for the amended C3 theorem at a one-item pending order. -/
theorem encontrarCaminho_pendente_entregue_e_fluxo_witness :
    encontrarCaminho .PENDENTE .ENTREGUE =
      [.CONFIRMADO, .PREPARANDO, .PRONTO, .ENVIADO, .ENTREGUE] ∧
    executarFluxoAutomatico pedidoExemplo .ENTREGUE =
      .ok ({ pedidoExemplo with status := .ENTREGUE },
           [(.PENDENTE, .CONFIRMADO), (.CONFIRMADO, .PREPARANDO), (.PREPARANDO, .PRONTO),
            (.PRONTO, .ENVIADO), (.ENVIADO, .ENTREGUE)]) ∧
    (executarFluxoAutomatico pedidoExemplo .ENTREGUE).map (fun r => r.2.length) = .ok 5 :=
  encontrarCaminho_pendente_entregue_e_fluxo pedidoExemplo ⟨10000, .BRL⟩ rfl rfl rfl
    (by decide)

/-- C4, counterexample.  Order of 100 units totalling R$ 100.49 (below the
value-discount floor, no coupon): the source computes the quantity discount
as 5% of `round2(total / quantity) * quantity = 100.00`, giving R$ 5.00,
while the claimed `round2(total * 5/100)` is R$ 5.02. -/
theorem calcularDescontoTotal_nao_e_percentual_do_total :
    calcularDescontoTotal pedidoCemUnidades none = .ok ⟨500, .BRL⟩ ∧
    pedidoCemUnidades.calcularTotal = .ok ⟨10049, .BRL⟩ ∧
    pedidoCemUnidades.calcularQuantidadeItens = 100 ∧
    roundHalfUpDiv (10049 * 5) 100 = 502 ∧ (500 : Nat) ≠ 502 :=
  ⟨rfl, rfl, rfl, by decide, by decide⟩

/-- The quantity discount the service computes — 5% of the total rebuilt
from the rounded average unit price — never exceeds the total, so the final
clamp of `calcularDescontoTotal` does not fire on the quantity discount
alone. -/
theorem roundHalfUpDiv_quantidade_le (tc q : Nat) :
    roundHalfUpDiv (roundHalfUpDiv tc q * q * 5) 100 ≤ tc := by
  unfold roundHalfUpDiv
  rw [show (2 * 100 : Nat) = 200 from rfl]
  by_cases hcase : q ≤ 2 * tc
  · have h1 : (2 * tc + q) / (2 * q) * (2 * q) ≤ 2 * tc + q := Nat.div_mul_le_self _ _
    set p := (2 * tc + q) / (2 * q) with hp
    set v := p * q with hv
    have h1' : 2 * v ≤ 2 * tc + q := by
      calc 2 * v = p * (2 * q) := by ring
      _ ≤ 2 * tc + q := h1
    omega
  · have hp0 : (2 * tc + q) / (2 * q) = 0 := Nat.div_eq_of_lt (by omega)
    rw [hp0]
    norm_num

/-- C4, amended.  For an order with no coupon, total below the R$ 500 value
floor and total quantity at least 10, `calcularDescontoTotal` returns
`round2(5% of (round2(total / quantity) * quantity))`: the quantity discount
is 5% of the total *reconstructed* from the rounded average unit price,
which differs from 5% of the order's total whenever `total / quantity` does
not round exactly (see the counterexample). -/
theorem calcularDescontoTotal_quantidade_formula
    (pedido : Pedido) (total : Money)
    (htot : pedido.calcularTotal = .ok total)
    (hlt : total.centavos < 50000)
    (hq : 10 ≤ pedido.calcularQuantidadeItens) :
    calcularDescontoTotal pedido none =
      .ok ⟨roundHalfUpDiv
            (roundHalfUpDiv total.centavos pedido.calcularQuantidadeItens *
              pedido.calcularQuantidadeItens * 5) 100,
           total.moeda⟩ := by
  have hq0 : pedido.calcularQuantidadeItens ≠ 0 := by omega
  by_cases hz : total.centavos = 0
  · have hpu : roundHalfUpDiv 0 pedido.calcularQuantidadeItens = 0 := by
      unfold roundHalfUpDiv
      exact Nat.div_eq_of_lt (by omega)
    simp only [calcularDescontoTotal, htot, Money.isZero, hz]
    simp [Money.zero, hz, hpu]
    unfold roundHalfUpDiv
    norm_num
  · have hle := roundHalfUpDiv_quantidade_le total.centavos pedido.calcularQuantidadeItens
    simp only [calcularDescontoTotal, htot, Money.isZero, hz]
    simp only [Money.divide, hq0, if_false, decide_eq_true_eq, ite_false]
    simp only [calcularDescontoPorQuantidade, Money.multiplyNat, Money.multiplyPercent,
      if_pos hq, calcularDescontoPorValorTotal, if_neg (by omega : ¬ total.centavos ≥ 500 * 100),
      Money.zero, Money.add, Money.isGreaterThan]
    set D := roundHalfUpDiv
      (roundHalfUpDiv total.centavos pedido.calcularQuantidadeItens *
        pedido.calcularQuantidadeItens * 5) 100 with hD
    by_cases hdq : 0 < D
    · simp [hdq, Nat.not_lt.mpr hle]
    · simp [hdq, Nat.not_lt.mpr hle, show D = 0 by omega]

/-- Witness for the amended C4 theorem at the 100-unit R$ 100.49 order:
`round2(100.49 / 100) = 1.00`, rebuilt total `100.00`, discount `5.00`. -/
theorem calcularDescontoTotal_quantidade_formula_witness :
    pedidoCemUnidades.calcularTotal = .ok ⟨10049, .BRL⟩ ∧
    (10049 : Nat) < 50000 ∧ 10 ≤ pedidoCemUnidades.calcularQuantidadeItens ∧
    calcularDescontoTotal pedidoCemUnidades none =
      .ok ⟨roundHalfUpDiv
            (roundHalfUpDiv 10049 pedidoCemUnidades.calcularQuantidadeItens *
              pedidoCemUnidades.calcularQuantidadeItens * 5) 100,
           Moeda.BRL⟩ :=
  ⟨rfl, by decide, by decide,
   calcularDescontoTotal_quantidade_formula pedidoCemUnidades ⟨10049, .BRL⟩ rfl
     (by decide) (by decide)⟩

/-- C5.  Whatever the order and the optional coupon code, whenever
`calcularDescontoTotal` returns a discount it is at most the order's total:
the zero-total early return yields zero, and every other successful path
goes through the final clamp `if descontoTotal > valorTotal then valorTotal`. -/
theorem calcularDescontoTotal_nunca_excede_total
    (pedido : Pedido) (cupom : Option String) (desconto : Money)
    (h : calcularDescontoTotal pedido cupom = .ok desconto) :
    ∃ total, pedido.calcularTotal = .ok total ∧ desconto.centavos ≤ total.centavos := by
  unfold calcularDescontoTotal at h
  split at h
  · exact absurd h (by simp)
  · rename_i total htot
    refine ⟨total, htot, ?_⟩
    simp only [] at h
    repeat' split at h
    all_goals try exact Except.noConfusion h
    all_goals (rw [Except.ok.injEq] at h; subst h)
    all_goals try exact Nat.le_refl _
    all_goals try simp [Money.zero]
    all_goals rename_i hgt
    all_goals unfold Money.isGreaterThan at hgt
    all_goals split at hgt
    all_goals try exact Except.noConfusion hgt
    all_goals rw [Except.ok.injEq] at hgt
    all_goals simpa using of_decide_eq_false hgt

/-- Witness for C5 at the 100-unit order with no coupon: discount R$ 5.00,
total R$ 100.49. -/
theorem calcularDescontoTotal_nunca_excede_total_witness :
    ∃ total, pedidoCemUnidades.calcularTotal = .ok total ∧
      (Money.mk 500 .BRL).centavos ≤ total.centavos :=
  calcularDescontoTotal_nunca_excede_total pedidoCemUnidades none ⟨500, .BRL⟩ rfl

/-- C6.  Three saga steps instrumented to record every `execute`/`compensate`
invocation in the parameters bag; the third step's `execute` throws, and the
two flags choose independently whether each earlier step's compensation also
throws.  For every combination: the compensations of both already-executed
steps run, in reverse execution order (`s2` then `s1`, after the three
`execute` records); a failing compensation adds its error to
`context.errors` without preventing the remaining compensation from running;
and the error returned to the caller is the original step error, never a
compensation error. -/
theorem executarSaga_compensa_em_ordem_reversa_e_relanca_erro_original
    (falhaComp1 falhaComp2 : Bool) :
    executarSagaComSteps (registroTresSteps falhaComp1 falhaComp2) pedidoExemplo
        ["s1", "s2", "s3"] [] =
      (⟨pedidoExemplo,
        [("execute", "s1"), ("execute", "s2"), ("execute", "s3"),
         ("compensate", "s2"), ("compensate", "s1")],
        ["s1", "s2"], [],
        [.stepFalhou "s3", .stepFalhou "s3"] ++
          (if falhaComp2 then [.stepFalhou "compensacao-s2"] else []) ++
          (if falhaComp1 then [.stepFalhou "compensacao-s1"] else [])⟩,
       some (.stepFalhou "s3")) := by
  cases falhaComp1 <;> cases falhaComp2 <;> rfl

/-- C7.  From a terminal status (ENTREGUE or CANCELADO) the transition table
has no outgoing edges, so `obterTransicoesDisponiveis` is empty and
`podeTransicionar` returns false for every target status. -/
theorem status_terminal_sem_transicoes (pedido : Pedido)
    (h : pedido.status.isFinalStatus = true) :
    obterTransicoesDisponiveis pedido = [] ∧
    ∀ novoStatus, podeTransicionar pedido novoStatus = .ok false := by
  have hs : pedido.status = .ENTREGUE ∨ pedido.status = .CANCELADO := by
    revert h
    cases pedido.status <;> simp [StatusPedido.isFinalStatus]
  rcases hs with hs | hs <;>
    exact ⟨by simp [obterTransicoesDisponiveis, transicoes, hs],
           fun novoStatus => by simp [podeTransicionar, transicoes, hs]⟩

/-- Witness for C7 at a delivered order. -/
theorem status_terminal_sem_transicoes_witness :
    obterTransicoesDisponiveis pedidoEntregue = [] ∧
    ∀ novoStatus, podeTransicionar pedidoEntregue novoStatus = .ok false :=
  status_terminal_sem_transicoes pedidoEntregue (by decide)

/-- C8.  The merge path of `adicionarItem` is not atomic: on a pending order
holding 600 units of a product, adding 600 more units of the same product
first removes the existing item, then fails building the merged item
(1200 > 1000); the error is thrown with the existing item already gone. -/
theorem adicionarItem_merge_perde_item_em_erro :
    pedidoSeiscentos.adicionarItem itemSeiscentos =
      ({ pedidoSeiscentos with itens := [] }, some .quantidadeInvalida) ∧
    pedidoSeiscentos.itens ≠ [] :=
  ⟨rfl, by decide⟩

/-- C9.  On the merge path of `adicionarItem` (representative one-item
pending order, incoming item for the same product id, merged quantity within
bounds), the merged item is built by `itemExistente.alterarQuantidade`, so it
keeps the existing item's product reference and unit price; the incoming
unit price `m2` does not occur in the result, and the order total afterwards
is the merged quantity times the *old* unit price. -/
theorem adicionarItem_merge_mantem_preco_unitario
    (prodExistente prodNovo : ProdutoInfo) (q1 q2 : Nat) (m1 m2 : Money)
    (hid : prodNovo.id = prodExistente.id)
    (hidne : prodExistente.id ≠ "")
    (hnome : prodExistente.nome ≠ "")
    (hm1 : m1.centavos ≠ 0)
    (hmoeda : m2.moeda = m1.moeda)
    (hq0 : 0 < q1 + q2) (hq1000 : q1 + q2 ≤ 1000) :
    Pedido.adicionarItem ⟨"cliente-123", [⟨prodExistente, q1, m1⟩], .PENDENTE⟩
        ⟨prodNovo, q2, m2⟩ =
      (⟨"cliente-123", [⟨prodExistente, q1 + q2, m1⟩], .PENDENTE⟩, none) ∧
    Pedido.calcularTotal ⟨"cliente-123", [⟨prodExistente, q1 + q2, m1⟩], .PENDENTE⟩ =
      .ok ⟨m1.centavos * (q1 + q2), m1.moeda⟩ := by
  constructor
  · simp only [Pedido.adicionarItem, Pedido.validateCanModifyItens,
      Pedido.validateItemParaAdicionar, ItemPedido.precoTotal, Money.multiplyNat,
      ItemPedido.isMesmoProduto, ItemPedido.alterarQuantidade, ItemPedido.criar,
      Money.isZero, List.find?, List.filter, hid, hmoeda]
    simp [hidne, hnome, hm1, Nat.pos_iff_ne_zero.mp hq0, Nat.not_lt.mpr hq1000]
  · simp [Pedido.calcularTotal, Pedido.somaItens, Money.add, Money.zero,
      ItemPedido.precoTotal, Money.multiplyNat]

/-- Witness for C9: merging 4 units at R$ 9.99 into an existing 3 units at
R$ 1.00 yields one item of 7 units still priced R$ 1.00, total R$ 7.00. -/
theorem adicionarItem_merge_mantem_preco_unitario_witness :
    Pedido.adicionarItem ⟨"cliente-123", [⟨produtoUm, 3, ⟨100, .BRL⟩⟩], .PENDENTE⟩
        ⟨produtoUmBis, 4, ⟨999, .BRL⟩⟩ =
      (⟨"cliente-123", [⟨produtoUm, 7, ⟨100, .BRL⟩⟩], .PENDENTE⟩, none) ∧
    Pedido.calcularTotal ⟨"cliente-123", [⟨produtoUm, 7, ⟨100, .BRL⟩⟩], .PENDENTE⟩ =
      .ok ⟨700, .BRL⟩ :=
  adicionarItem_merge_mantem_preco_unitario produtoUm produtoUmBis 3 4 ⟨100, .BRL⟩ ⟨999, .BRL⟩
    (by decide) (by decide) (by decide) (by decide) (by decide) (by decide) (by decide)

/-- C10.  A saga run of two instrumented steps whose second `execute` throws
and whose compensations succeed: the step error is pushed onto
`context.errors` once by `executarStep` and once more by the saga runner's
catch block, so the final context carries the same error twice. -/
theorem executarSaga_registra_erro_duas_vezes :
    (executarSagaComSteps registroDoisSteps pedidoExemplo ["s1", "s2"] []).1.errors =
      [.stepFalhou "s2", .stepFalhou "s2"] ∧
    (executarSagaComSteps registroDoisSteps pedidoExemplo ["s1", "s2"] []).1.errors.length = 2 ∧
    (executarSagaComSteps registroDoisSteps pedidoExemplo ["s1", "s2"] []).2 =
      some (.stepFalhou "s2") :=
  ⟨rfl, rfl, rfl⟩

end Hexagonal
